import Mathlib

/-!
Verification of the Tax/Lot Accounting Engine of `financial_api`
(`src/financial_api/utils.py`, class `TaxCalculator`, together with the
`Transaction` value properties of `src/financial_api/models.py`).

All monetary amounts are modelled as exact rationals: every operation the
engine performs on Python `Decimal` values (addition, subtraction,
multiplication, comparison, `min`, `max`, `abs`) is exact in `Decimal`,
so `ℚ` is a faithful carrier.  Mutation of the Python objects
(transaction quantities, the per-ticker holdings lists) is modelled by
explicit state passing; object identity is modelled by a numeric `tid`
field on transactions.
-/

namespace FinanceAPI

/-- Transaction type: the `TRANSACTION_TYPES` choices of `models.Transaction`. -/
inductive TType where
  | buy
  | sell
deriving DecidableEq, Repr

/-- Calendar date (`models.Transaction.date`); only equality and the
year/month components are ever consulted by the engine. -/
structure SimpleDate where
  year : Nat
  month : Nat
  day : Nat
deriving DecidableEq, Repr

/-- The fields of `models.Transaction` read or written by `TaxCalculator`.
`tid` models Python object identity (needed because `process_day_trades`
mutates transactions in place and the month loop then re-reads them). -/
structure Transaction where
  tid : Nat
  ticker : String
  transaction_type : TType
  quantity : ℚ
  price_usd : ℚ
  exchange_rate : ℚ
  date : SimpleDate
  brokerage_fee : ℚ
  is_day_trade : Bool
deriving DecidableEq, Repr

/-- `models.Transaction.total_value_usd`: quantity × price plus the brokerage fee. -/
def Transaction.total_value_usd (t : Transaction) : ℚ :=
  t.quantity * t.price_usd + t.brokerage_fee

/-- `models.Transaction.total_value_brl`: the USD total times the recorded exchange rate. -/
def Transaction.total_value_brl (t : Transaction) : ℚ :=
  t.total_value_usd * t.exchange_rate

/-- `TaxCalculator.TAX_RATE` (15% on normal net capital gains). -/
def TAX_RATE : ℚ := 15 / 100

/-- `TaxCalculator.MONTHLY_EXEMPTION` (R$ 20,000.00). -/
def MONTHLY_EXEMPTION : ℚ := 20000

/-- `TaxCalculator.DAY_TRADE_TAX_RATE` (20% on day-trade net gains). -/
def DAY_TRADE_TAX_RATE : ℚ := 20 / 100

/-- `TaxCalculator.IRRF_RATE` (0.005% withheld on sales). -/
def IRRF_RATE : ℚ := 5 / 100000

/-- `TaxCalculator.SWING_TRADE_EXEMPTION` (R$ 20,000.00). -/
def SWING_TRADE_EXEMPTION : ℚ := 20000

/-- One entry of a per-ticker holdings list, exactly the dict appended in
`calculate_month_taxes` for a non-day-trade buy:
`{'quantity', 'price', 'exchange_rate', 'date', 'brokerage_fee'}`. -/
structure Lot where
  quantity : ℚ
  price : ℚ
  exchange_rate : ℚ
  date : SimpleDate
  brokerage_fee : ℚ
deriving DecidableEq, Repr

/-- The `holdings` defaultdict of `calculate_taxes` / `calculate_month_taxes`:
ticker → list of open lots, empty list for an unseen ticker. -/
def Holdings : Type := String → List Lot

/-- Writing back the (mutated) lot list of one ticker. -/
def updateHoldings (h : Holdings) (ticker : String) (lots : List Lot) : Holdings :=
  fun s => if s = ticker then lots else h s

/-- The `while remaining_quantity > 0 and holdings:` loop of
`TaxCalculator.calculate_fifo_gain_loss`.  First component: the
accumulated `total_gain_loss`; second: the holdings list after the loop
(the in-place `pop(0)` / quantity decrement of the source).  Each slice's
sale side uses the sell's own price and exchange rate and its cost side
the lot's recorded price and exchange rate. -/
def fifoLoop (sell : Transaction) : List Lot → ℚ → ℚ × List Lot
  | [], _ => (0, [])
  | holding :: rest, remaining =>
    if 0 < remaining then
      if holding.quantity ≤ remaining then
        let quantity_used := holding.quantity
        let cost_basis_brl := quantity_used * holding.price * holding.exchange_rate
        let sale_value_brl := quantity_used * sell.price_usd * sell.exchange_rate
        let r := fifoLoop sell rest (remaining - quantity_used)
        (sale_value_brl - cost_basis_brl + r.1, r.2)
      else
        let quantity_used := remaining
        let cost_basis_brl := quantity_used * holding.price * holding.exchange_rate
        let sale_value_brl := quantity_used * sell.price_usd * sell.exchange_rate
        (sale_value_brl - cost_basis_brl,
         { holding with quantity := holding.quantity - quantity_used } :: rest)
    else (0, holding :: rest)

/-- `TaxCalculator.calculate_fifo_gain_loss`: runs the FIFO loop on the
sell's full quantity, returning the realized gain/loss and the updated
lot list.  The source has no error path: when the inventory is exhausted
the loop simply stops. -/
def calculate_fifo_gain_loss (sell : Transaction) (holdings : List Lot) : ℚ × List Lot :=
  fifoLoop sell holdings sell.quantity

/-- Total open quantity of a lot list. -/
def totalQuantity (lots : List Lot) : ℚ :=
  (lots.map Lot.quantity).sum

/-- The running `result` dict of `TaxCalculator.process_day_trades`. -/
structure DTResult where
  gains : ℚ
  losses : ℚ
deriving DecidableEq, Repr

/-- The inner `for sell in sells:` loop of `process_day_trades` for one
buy: matches `min(buy.quantity, sell.quantity)` against each sell still
holding quantity, decrements both sides, flags both as day trades, and
accumulates the matched gain/loss.  Returns the buy after the loop, the
sells after the loop (same order), and the updated accumulator. -/
def matchBuyAgainstSells (buy : Transaction) :
    List Transaction → DTResult → Transaction × List Transaction × DTResult
  | [], acc => (buy, [], acc)
  | sell :: rest, acc =>
    if 0 < buy.quantity ∧ 0 < sell.quantity then
      let day_trade_qty := min buy.quantity sell.quantity
      let buy_value := day_trade_qty * buy.price_usd * buy.exchange_rate
      let sell_value := day_trade_qty * sell.price_usd * sell.exchange_rate
      let gain_loss := sell_value - buy_value
      let buy1 := { buy with quantity := buy.quantity - day_trade_qty, is_day_trade := true }
      let sell1 := { sell with quantity := sell.quantity - day_trade_qty, is_day_trade := true }
      let acc1 := if 0 < gain_loss then { acc with gains := acc.gains + gain_loss }
                  else { acc with losses := acc.losses + |gain_loss| }
      let r := matchBuyAgainstSells buy1 rest acc1
      (r.1, sell1 :: r.2.1, r.2.2)
    else
      let r := matchBuyAgainstSells buy rest acc
      (r.1, sell :: r.2.1, r.2.2)

/-- The outer `for buy in buys:` loop of `process_day_trades`: threads the
(mutating) sell list through the buys. -/
def matchBuys : List Transaction → List Transaction → DTResult →
    List Transaction × List Transaction × DTResult
  | [], sells, acc => ([], sells, acc)
  | buy :: buys, sells, acc =>
    let r := matchBuyAgainstSells buy sells acc
    let r2 := matchBuys buys r.2.1 r.2.2
    (r.1 :: r2.1, r2.2.1, r2.2.2)

/-- Python `defaultdict` key order: keys in order of first appearance. -/
def insertKey {β : Type} [DecidableEq β] (ks : List β) (k : β) : List β :=
  if k ∈ ks then ks else ks ++ [k]

/-- Grouping keys of a list in order of first appearance, as iterating a
`defaultdict` built by appending does. -/
def keysInOrder {α β : Type} [DecidableEq β] (key : α → β) (ts : List α) : List β :=
  ts.foldl (fun ks t => insertKey ks (key t)) []

/-- Looks up the post-matching version of a transaction by object
identity; used to model that the month loop re-reads the very objects
`process_day_trades` mutated. -/
def findUpd (pool : List Transaction) (t : Transaction) : Transaction :=
  match pool.find? (fun u => u.tid = t.tid) with
  | some u => u
  | none => t

/-- One ticker group of `process_day_trades`: partition into buys and
sells (each in original order) and run the greedy matching loops. -/
def processTickerGroup (txs : List Transaction) (acc : DTResult) :
    List Transaction × DTResult :=
  let buys := txs.filter (fun t => t.transaction_type = TType.buy)
  let sells := txs.filter (fun t => t.transaction_type = TType.sell)
  let r := matchBuys buys sells acc
  (r.1 ++ r.2.1, r.2.2)

/-- One iteration of the `for ticker, ticker_txs in ...` loop of
`process_day_trades`: runs the matcher on one ticker's transactions,
extends the pool of mutated transactions, and threads the accumulator. -/
def dayTradeStep (transactions : List Transaction)
    (s : List Transaction × DTResult) (tk : String) : List Transaction × DTResult :=
  let g := processTickerGroup (transactions.filter (fun t => t.ticker = tk)) s.2
  (s.1 ++ g.1, g.2)

/-- `TaxCalculator.process_day_trades`: groups one day's transactions by
ticker (first-appearance order), matches buys against sells per ticker,
and returns the accumulated day-trade gains/losses together with the
day's transactions in their original order but with the mutations
(decremented quantities, `is_day_trade` flags) applied. -/
def process_day_trades (transactions : List Transaction) : DTResult × List Transaction :=
  let tickers := keysInOrder Transaction.ticker transactions
  let r := tickers.foldl (dayTradeStep transactions) ([], { gains := 0, losses := 0 })
  (r.2, transactions.map (findUpd r.1))

/-- The mutable locals of `TaxCalculator.calculate_month_taxes` during its
day loop.  `day_trade_losses` is the LOCAL variable initialised to
`Decimal('0.00')` at the top of the function body — the source shadows
the parameter of the same name with it. -/
structure MonthState where
  month_gains : ℚ
  month_losses : ℚ
  month_sales_total : ℚ
  day_trade_gains : ℚ
  day_trade_losses : ℚ
  irrf_paid : ℚ
  compensable_losses : ℚ
  compensable_losses_used : ℚ
  day_trade_losses_used : ℚ
  holdings : Holdings

/-- The per-month dict returned by `calculate_month_taxes`. -/
structure MonthResult where
  month : Nat × Nat
  gains : ℚ
  losses : ℚ
  net_gains : ℚ
  sales_total : ℚ
  taxable_gains : ℚ
  day_trade_gains : ℚ
  day_trade_losses : ℚ
  irrf_paid : ℚ
  exempt : Bool
  exempted_gains : ℚ
  exempted_sales : ℚ
  remaining_compensable_losses : ℚ
  remaining_day_trade_losses : ℚ
  compensable_losses_used : ℚ
  day_trade_losses_used : ℚ
deriving DecidableEq, Repr

/-- The `for transaction in day_transactions:` body of
`calculate_month_taxes` (run after day-trade matching): IRRF and sales
volume accrue for every sell; FIFO runs only for unflagged sells, with
prior-year normal-loss offset applied to a positive gain; unflagged buys
are appended to the ticker's holdings. -/
def processNormalTx (s : MonthState) (t : Transaction) : MonthState :=
  match t.transaction_type with
  | TType.sell =>
    let irrf := t.total_value_brl * IRRF_RATE
    let s1 := { s with irrf_paid := s.irrf_paid + irrf,
                       month_sales_total := s.month_sales_total + t.total_value_brl }
    if t.is_day_trade then s1
    else
      let fr := calculate_fifo_gain_loss t (s1.holdings t.ticker)
      let gain_loss := fr.1
      let s2 : MonthState := { s1 with holdings := updateHoldings s1.holdings t.ticker fr.2 }
      if 0 < gain_loss then
        if 0 < s2.compensable_losses then
          let losses_to_use := min gain_loss s2.compensable_losses
          { s2 with month_gains := s2.month_gains + (gain_loss - losses_to_use),
                    compensable_losses := s2.compensable_losses - losses_to_use,
                    compensable_losses_used := s2.compensable_losses_used + losses_to_use }
        else { s2 with month_gains := s2.month_gains + gain_loss }
      else { s2 with month_losses := s2.month_losses + |gain_loss| }
  | TType.buy =>
    if t.is_day_trade then s
    else
      { s with holdings := (updateHoldings s.holdings t.ticker
          (s.holdings t.ticker ++
            [{ quantity := t.quantity, price := t.price_usd,
               exchange_rate := t.exchange_rate, date := t.date,
               brokerage_fee := t.brokerage_fee }])) }

/-- One iteration of the `for date, day_transactions in ...` loop:
day-trade matching, the losses-first offset against the local
`day_trade_losses` balance, accumulation, then the normal loop over the
(mutated) day transactions. -/
def processDay (s : MonthState) (day_transactions : List Transaction) : MonthState :=
  let r := process_day_trades day_transactions
  let day_trade_results := r.1
  let updated := r.2
  let s1 :=
    if 0 < day_trade_results.gains ∧ 0 < s.day_trade_losses then
      let losses_to_use := min day_trade_results.gains s.day_trade_losses
      { s with day_trade_gains := s.day_trade_gains + (day_trade_results.gains - losses_to_use),
               day_trade_losses := (s.day_trade_losses - losses_to_use) + day_trade_results.losses,
               day_trade_losses_used := s.day_trade_losses_used + losses_to_use }
    else
      { s with day_trade_gains := s.day_trade_gains + day_trade_results.gains,
               day_trade_losses := s.day_trade_losses + day_trade_results.losses }
  updated.foldl processNormalTx s1

/-- The tail of `calculate_month_taxes`: the monthly swing-trade
exemption applied to the end-of-month state (`net_gains`,
`exempted_gains`, `exempted_sales`, `taxable_gains`) and the result dict.
The `eg_es_tg` triple is (exempted gains, exempted sales, taxable gains),
exactly the three variables the source's exemption `if` assigns. -/
def monthResultOf (month : Nat × Nat) (s : MonthState) : MonthResult :=
  let net_gains := s.month_gains - s.month_losses
  let eg_es_tg : ℚ × ℚ × ℚ :=
    if 0 < net_gains ∧ s.month_sales_total ≤ SWING_TRADE_EXEMPTION then
      (net_gains, s.month_sales_total, 0)
    else
      (0, 0, if 0 < net_gains then net_gains else 0)
  { month := month, gains := s.month_gains, losses := s.month_losses,
    net_gains := net_gains, sales_total := s.month_sales_total,
    taxable_gains := eg_es_tg.2.2, day_trade_gains := s.day_trade_gains,
    day_trade_losses := s.day_trade_losses, irrf_paid := s.irrf_paid,
    exempt := decide (s.month_sales_total ≤ MONTHLY_EXEMPTION),
    exempted_gains := eg_es_tg.1, exempted_sales := eg_es_tg.2.1,
    remaining_compensable_losses := s.compensable_losses,
    remaining_day_trade_losses := s.day_trade_losses,
    compensable_losses_used := s.compensable_losses_used,
    day_trade_losses_used := s.day_trade_losses_used }

/-- `TaxCalculator.calculate_month_taxes`.  NOTE, faithful to the source:
the `day_trade_losses` PARAMETER is immediately shadowed by the local
initialisation `day_trade_losses = Decimal('0.00')` (utils.py line 340),
so the incoming day-trade carryforward balance never takes part in the
computation; the `compensable_losses` parameter, by contrast, is used.
Returns the month dict and the holdings after the month (the source
mutates the shared `holdings` defaultdict in place). -/
def calculate_month_taxes (transactions : List Transaction) (holdings : Holdings)
    (month : Nat × Nat) (compensable_losses : ℚ) (day_trade_losses : ℚ) :
    MonthResult × Holdings :=
  let day_trade_losses := (0 : ℚ)
  let dates := keysInOrder Transaction.date transactions
  let init : MonthState :=
    { month_gains := 0, month_losses := 0, month_sales_total := 0,
      day_trade_gains := 0, day_trade_losses := day_trade_losses,
      irrf_paid := 0, compensable_losses := compensable_losses,
      compensable_losses_used := 0, day_trade_losses_used := 0,
      holdings := holdings }
  let s := dates.foldl
    (fun st d => processDay st (transactions.filter (fun t => t.date = d))) init
  (monthResultOf month s, s.holdings)

/-- The running accumulators of `TaxCalculator.calculate_taxes`. -/
structure YearState where
  total_gains : ℚ
  total_losses : ℚ
  day_trade_gains : ℚ
  day_trade_losses : ℚ
  irrf_paid : ℚ
  total_exempted_gains : ℚ
  total_exempted_sales : ℚ
  previous_year_losses_used : ℚ
  previous_year_day_trade_losses_used : ℚ
  remaining_compensable_losses : ℚ
  remaining_day_trade_losses : ℚ
  holdings : Holdings
  monthly_breakdown : List MonthResult

/-- The `yearly_summary` dict produced by `calculate_taxes`
(recommendation strings omitted: no claim concerns them). -/
structure YearlySummary where
  year : Int
  total_gains : ℚ
  total_losses : ℚ
  net_gains : ℚ
  tax_owed : ℚ
  irrf_paid : ℚ
  day_trade_gains : ℚ
  day_trade_losses : ℚ
  day_trade_tax : ℚ
  compensable_losses : ℚ
  day_trade_compensable_losses : ℚ
  previous_year_losses_used : ℚ
  previous_year_day_trade_losses_used : ℚ
  total_exempted_gains : ℚ
  total_exempted_sales : ℚ
  monthly_breakdown : List MonthResult
deriving DecidableEq, Repr

/-- Month key of a transaction, modelling the `"YYYY-MM"` string key of
`group_transactions_by_month`. -/
def monthKey (t : Transaction) : Nat × Nat :=
  (t.date.year, t.date.month)

/-- One iteration of the `for month, transactions in monthly_data.items():`
loop of `calculate_taxes`. -/
def yearStep (transactions : List Transaction) (st : YearState) (m : Nat × Nat) :
    YearState :=
  let r := calculate_month_taxes (transactions.filter (fun t => monthKey t = m))
    st.holdings m st.remaining_compensable_losses st.remaining_day_trade_losses
  let mr := r.1
  { total_gains := st.total_gains + mr.gains,
    total_losses := st.total_losses + mr.losses,
    day_trade_gains := st.day_trade_gains + mr.day_trade_gains,
    day_trade_losses := st.day_trade_losses + mr.day_trade_losses,
    irrf_paid := st.irrf_paid + mr.irrf_paid,
    total_exempted_gains := st.total_exempted_gains + mr.exempted_gains,
    total_exempted_sales := st.total_exempted_sales + mr.exempted_sales,
    previous_year_losses_used := st.previous_year_losses_used + mr.compensable_losses_used,
    previous_year_day_trade_losses_used :=
      st.previous_year_day_trade_losses_used + mr.day_trade_losses_used,
    remaining_compensable_losses := mr.remaining_compensable_losses,
    remaining_day_trade_losses := mr.remaining_day_trade_losses,
    holdings := r.2,
    monthly_breakdown := st.monthly_breakdown ++ [mr] }

/-- The tail of `calculate_taxes`: the net-gain split, the two tax-rate
applications (each only when the respective net gain is positive), the
IRRF credit floored at zero, and the next-year carryforward balances. -/
def yearlySummaryOf (year : Int) (st : YearState) : YearlySummary :=
  let normal_net_gains := st.total_gains - st.total_losses
  let day_trade_net_gains := st.day_trade_gains - st.day_trade_losses
  let tax_from_normal := if 0 < normal_net_gains then normal_net_gains * TAX_RATE else 0
  let day_trade_tax :=
    if 0 < day_trade_net_gains then day_trade_net_gains * DAY_TRADE_TAX_RATE else 0
  let total_tax := tax_from_normal + day_trade_tax
  { year := year,
    total_gains := st.total_gains,
    total_losses := st.total_losses,
    net_gains := 0,
    tax_owed := max (total_tax - st.irrf_paid) 0,
    irrf_paid := st.irrf_paid,
    day_trade_gains := st.day_trade_gains,
    day_trade_losses := st.day_trade_losses,
    day_trade_tax := day_trade_tax,
    compensable_losses := if normal_net_gains < 0 then |normal_net_gains| else 0,
    day_trade_compensable_losses :=
      if day_trade_net_gains < 0 then |day_trade_net_gains| else 0,
    previous_year_losses_used := st.previous_year_losses_used,
    previous_year_day_trade_losses_used := st.previous_year_day_trade_losses_used,
    total_exempted_gains := st.total_exempted_gains,
    total_exempted_sales := st.total_exempted_sales,
    monthly_breakdown := st.monthly_breakdown }

/-- `TaxCalculator.calculate_taxes` for one year, parameterised by the
prior-year carryforward balances that `__init__` would have installed as
`self.compensable_losses` / `self.day_trade_compensable_losses`. -/
def calculate_taxes (year : Int) (transactions : List Transaction)
    (compensable_losses day_trade_compensable_losses : ℚ) : YearlySummary :=
  let months := keysInOrder monthKey transactions
  let init : YearState :=
    { total_gains := 0, total_losses := 0, day_trade_gains := 0,
      day_trade_losses := 0, irrf_paid := 0, total_exempted_gains := 0,
      total_exempted_sales := 0, previous_year_losses_used := 0,
      previous_year_day_trade_losses_used := 0,
      remaining_compensable_losses := compensable_losses,
      remaining_day_trade_losses := day_trade_compensable_losses,
      holdings := fun _ => [], monthly_breakdown := [] }
  let st := months.foldl (yearStep transactions) init
  yearlySummaryOf year st

/-- The cross-year recursion of the source, made total with an explicit
`fuel` argument that models the Python interpreter's recursion limit:
`TaxCalculator.__init__` calls `get_previous_year_losses`, which
UNCONDITIONALLY constructs `TaxCalculator(user, year - 1)` — whose
`__init__` recurses again.  There is no base case in the source; the
descent ends only when the recursion limit is hit, and the resulting
exception is caught by the bare `except Exception: return {}`, which the
caller turns into zero carryforward defaults (the `fuel = 0` case here).
`ledgers` maps each year to that year's transaction list. -/
def run_engine : Nat → (Int → List Transaction) → Int → YearlySummary
  | 0, ledgers, year => calculate_taxes year (ledgers year) 0 0
  | fuel + 1, ledgers, year =>
    let prev := run_engine fuel ledgers (year - 1)
    calculate_taxes year (ledgers year) prev.compensable_losses
      prev.day_trade_compensable_losses

/-- Number of `TaxCalculator` constructions (equivalently, prior-year
descents) performed by one engine run with recursion budget `fuel`,
following the same recursion scheme as `run_engine`.  The ledger is
threaded through to record that the descent never consults it. -/
def taxCalculatorConstructions : Nat → (Int → List Transaction) → Int → Nat
  | 0, _, _ => 1
  | fuel + 1, ledgers, year => 1 + taxCalculatorConstructions fuel ledgers (year - 1)

/-! Concrete inputs used by counterexamples and witnesses. -/

/-- An early-January trade date. -/
def dJan5 : SimpleDate := ⟨2024, 1, 5⟩

/-- A late-January trade date. -/
def dJan20 : SimpleDate := ⟨2024, 1, 20⟩

/-- A sell of 50 shares with no prior buy for its ticker. -/
def exSell50 : Transaction := ⟨0, "W", TType.sell, 50, 10, 5, dJan20, 0, false⟩

/-- A 100-share lot bought at $10 with recorded exchange rate 2. -/
def exLotA : Lot := ⟨100, 10, 2, dJan5, 0⟩

/-- A 50-share lot bought at $12 with recorded exchange rate 3. -/
def exLotB : Lot := ⟨50, 12, 3, dJan5, 0⟩

/-- A sell of 120 shares at $15 with exchange rate 5. -/
def exSellC7 : Transaction := ⟨0, "Z", TType.sell, 120, 15, 5, dJan20, 0, false⟩

/-- A one-month ledger: buy 10 @ $100 on Jan 5, sell 10 @ $150 on Jan 20,
exchange rate 1, no fees.  Gain 500, sales volume 1500 (under the
exemption threshold). -/
def exLedgerExempt : List Transaction :=
  [⟨0, "A", TType.buy, 10, 100, 1, dJan5, 0, false⟩,
   ⟨1, "A", TType.sell, 10, 150, 1, dJan20, 0, false⟩]

/-- A same-day buy/sell pair producing a day-trade gain of 50. -/
def exDayTradeGainTxs : List Transaction :=
  [⟨0, "X", TType.buy, 10, 10, 1, dJan5, 0, false⟩,
   ⟨1, "X", TType.sell, 10, 15, 1, dJan5, 0, false⟩]

/-- A same-day pair with a buy of 100 and a sell of only 40: a partially
matched day trade with a 60-share buy remainder. -/
def exPartialPairTxs : List Transaction :=
  [⟨0, "X", TType.buy, 100, 10, 1, dJan5, 0, false⟩,
   ⟨1, "X", TType.sell, 40, 12, 1, dJan5, 0, false⟩]

/-- A fully matched same-day pair: buy 100 @ $10 and sell 100 @ $10,
rate 1, no fees; the sell's pre-matching home-currency value is 1000. -/
def exFullPairTxs : List Transaction :=
  [⟨0, "Y", TType.buy, 100, 10, 1, dJan5, 0, false⟩,
   ⟨1, "Y", TType.sell, 100, 10, 1, dJan5, 0, false⟩]

/-- A same-day pair with a buy of only 40 and a sell of 100: a partially
matched day trade with a 60-share SELL remainder. -/
def exSellRemainderTxs : List Transaction :=
  [⟨0, "X", TType.buy, 40, 10, 1, dJan5, 0, false⟩,
   ⟨1, "X", TType.sell, 100, 12, 1, dJan5, 0, false⟩]

/-- A pre-existing 100-share lot bought at $5, rate 1, held before the
partially matched day of `exSellRemainderTxs`. -/
def exLotX : Lot := ⟨100, 5, 1, dJan5, 0⟩

/-- Empty holdings. -/
def emptyHoldings : Holdings := fun _ => []

/-- Replaces a transaction's brokerage fee (all other fields unchanged);
used to state that realized gains never depend on fees. -/
def setTxFee (x : ℚ) (t : Transaction) : Transaction :=
  { t with brokerage_fee := x }

/-- Replaces a lot's recorded brokerage fee (all other fields unchanged). -/
def setLotFee (x : ℚ) (l : Lot) : Lot :=
  { l with brokerage_fee := x }

/-! Helper lemmas. -/

theorem totalQuantity_cons (l : Lot) (ls : List Lot) :
    totalQuantity (l :: ls) = l.quantity + totalQuantity ls := by
  simp [totalQuantity]

theorem totalQuantity_nonneg (ls : List Lot)
    (h : ∀ l ∈ ls, 0 ≤ l.quantity) : 0 ≤ totalQuantity ls := by
  induction ls with
  | nil => simp [totalQuantity]
  | cons a t ih =>
    rw [totalQuantity_cons]
    have ha : 0 ≤ a.quantity := h a (List.mem_cons_self a t)
    have ht : 0 ≤ totalQuantity t := ih (fun l hl => h l (List.mem_cons_of_mem a hl))
    linarith

/-- Core behaviour of the FIFO loop on well-formed inventories: lot
quantities stay non-negative and exactly `min requested available` is
consumed. -/
theorem fifoLoop_spec (sell : Transaction) (lots : List Lot) (remaining : ℚ)
    (hr : 0 ≤ remaining) (hl : ∀ l ∈ lots, 0 ≤ l.quantity) :
    (∀ l ∈ (fifoLoop sell lots remaining).2, 0 ≤ l.quantity) ∧
    totalQuantity (fifoLoop sell lots remaining).2
      = totalQuantity lots - min remaining (totalQuantity lots) := by
  induction lots generalizing remaining with
  | nil =>
    refine ⟨by intro l hl2; simp [fifoLoop] at hl2, ?_⟩
    simp [fifoLoop, totalQuantity, min_eq_right hr]
  | cons holding rest ih =>
    have hh : 0 ≤ holding.quantity := hl holding (List.mem_cons_self holding rest)
    have hrest : ∀ l ∈ rest, 0 ≤ l.quantity :=
      fun l hm => hl l (List.mem_cons_of_mem holding hm)
    have hT : 0 ≤ totalQuantity rest := totalQuantity_nonneg rest hrest
    by_cases hpos : 0 < remaining
    · by_cases hle : holding.quantity ≤ remaining
      · have ih2 := ih (remaining - holding.quantity) (by linarith) hrest
        constructor
        · intro l hm
          apply ih2.1
          simpa [fifoLoop, hpos, hle] using hm
        · have heq : (fifoLoop sell (holding :: rest) remaining).2
              = (fifoLoop sell rest (remaining - holding.quantity)).2 := by
            simp [fifoLoop, hpos, hle]
          rw [heq, ih2.2, totalQuantity_cons]
          rcases le_total remaining (holding.quantity + totalQuantity rest) with hcase | hcase
          · rw [min_eq_left hcase, min_eq_left (by linarith)]
            ring
          · rw [min_eq_right hcase, min_eq_right (by linarith)]
            ring
      · push_neg at hle
        constructor
        · intro l hm
          simp only [fifoLoop, if_pos hpos, if_neg (not_le.mpr hle)] at hm
          rcases List.mem_cons.mp hm with h1 | h2
          · subst h1; simp; linarith
          · exact hrest l h2
        · have heq : (fifoLoop sell (holding :: rest) remaining).2
              = { holding with quantity := holding.quantity - remaining } :: rest := by
            simp [fifoLoop, hpos, not_le.mpr hle]
          rw [heq, totalQuantity_cons, totalQuantity_cons]
          have hle2 : remaining ≤ holding.quantity + totalQuantity rest := by linarith
          rw [min_eq_left hle2]
          simp
          ring
    · have hz : remaining = 0 := le_antisymm (not_lt.mp hpos) hr
      subst hz
      constructor
      · intro l hm
        simp only [fifoLoop, if_neg (lt_irrefl (0 : ℚ))] at hm
        exact hl l hm
      · simp only [fifoLoop, if_neg (lt_irrefl (0 : ℚ))]
        rw [min_eq_left (by rw [totalQuantity_cons]; linarith)]
        simp

/-- The exemption branch of the month tail, for an arbitrary end-of-month
state. -/
theorem monthResultOf_exemption (month : Nat × Nat) (s : MonthState) :
    ((0 < (monthResultOf month s).net_gains ∧
      (monthResultOf month s).sales_total ≤ SWING_TRADE_EXEMPTION) →
        (monthResultOf month s).taxable_gains = 0 ∧
        (monthResultOf month s).exempted_gains = (monthResultOf month s).net_gains) ∧
    (¬ (0 < (monthResultOf month s).net_gains ∧
        (monthResultOf month s).sales_total ≤ SWING_TRADE_EXEMPTION) →
        (monthResultOf month s).taxable_gains = max (monthResultOf month s).net_gains 0 ∧
        (monthResultOf month s).exempted_gains = 0) := by
  have hng : (monthResultOf month s).net_gains = s.month_gains - s.month_losses := rfl
  have hst : (monthResultOf month s).sales_total = s.month_sales_total := rfl
  rw [hng, hst]
  have htg : (monthResultOf month s).taxable_gains
      = (if 0 < s.month_gains - s.month_losses ∧
            s.month_sales_total ≤ SWING_TRADE_EXEMPTION then
           (s.month_gains - s.month_losses, s.month_sales_total, (0 : ℚ))
         else ((0 : ℚ), (0 : ℚ),
           if 0 < s.month_gains - s.month_losses then s.month_gains - s.month_losses
           else 0)).2.2 := rfl
  have heg : (monthResultOf month s).exempted_gains
      = (if 0 < s.month_gains - s.month_losses ∧
            s.month_sales_total ≤ SWING_TRADE_EXEMPTION then
           (s.month_gains - s.month_losses, s.month_sales_total, (0 : ℚ))
         else ((0 : ℚ), (0 : ℚ),
           if 0 < s.month_gains - s.month_losses then s.month_gains - s.month_losses
           else 0)).1 := rfl
  by_cases hc : 0 < s.month_gains - s.month_losses ∧
      s.month_sales_total ≤ SWING_TRADE_EXEMPTION
  · refine ⟨fun _ => ⟨?_, ?_⟩, fun h => absurd hc h⟩
    · rw [htg, if_pos hc]
    · rw [heg, if_pos hc]
  · refine ⟨fun h => absurd h hc, fun _ => ⟨?_, ?_⟩⟩
    · rw [htg, if_neg hc]
      show (if 0 < s.month_gains - s.month_losses then s.month_gains - s.month_losses
            else 0) = max (s.month_gains - s.month_losses) 0
      rcases lt_or_le 0 (s.month_gains - s.month_losses) with h2 | h2
      · rw [if_pos h2, max_eq_left h2.le]
      · rw [if_neg (not_lt.mpr h2), max_eq_right h2]
    · rw [heg, if_neg hc]

/-- The prior-year descent performs one calculator construction per unit
of recursion budget, plus the initial one, whatever the ledgers hold. -/
theorem taxConstructions_eq (fuel : Nat) (ledgers : Int → List Transaction)
    (year : Int) : taxCalculatorConstructions fuel ledgers year = fuel + 1 := by
  induction fuel generalizing year with
  | zero => rfl
  | succ n ih =>
    rw [taxCalculatorConstructions, ih]
    omega

/-- Applying a positive tax rate only to a positive net gain is the same
as applying it to the net gain floored at zero. -/
theorem ratePart (r a : ℚ) : (if 0 < a then a * r else 0) = r * max a 0 := by
  rcases lt_or_le 0 a with h | h
  · rw [if_pos h, max_eq_left h.le, mul_comm]
  · rw [if_neg (not_lt.mpr h), max_eq_right h, mul_zero]

/-- The tax formula of the yearly tail, for an arbitrary year state. -/
theorem yearlySummaryOf_formula (year : Int) (st : YearState) :
    (yearlySummaryOf year st).tax_owed
      = max (TAX_RATE * max ((yearlySummaryOf year st).total_gains
            - (yearlySummaryOf year st).total_losses) 0
          + DAY_TRADE_TAX_RATE * max ((yearlySummaryOf year st).day_trade_gains
            - (yearlySummaryOf year st).day_trade_losses) 0
          - (yearlySummaryOf year st).irrf_paid) 0
      ∧ 0 ≤ (yearlySummaryOf year st).tax_owed := by
  constructor
  · simp only [yearlySummaryOf]
    rw [ratePart TAX_RATE, ratePart DAY_TRADE_TAX_RATE]
  · simp only [yearlySummaryOf]
    exact le_max_right _ _

/-- Full evaluation of `process_day_trades` on a one-ticker buy/sell pair
with `0 < qs ≤ qb`: `min qb qs = qs` is matched, both transactions are
flagged and decremented, and the matched gain/loss lands in the
accumulator. -/
theorem pair_day_trades (tk : String) (qb qs pb ps rb rs fb fs : ℚ) (d : SimpleDate)
    (h0 : 0 < qb) (h1 : 0 < qs) (h2 : qs ≤ qb) :
    process_day_trades
        [⟨0, tk, TType.buy, qb, pb, rb, d, fb, false⟩,
         ⟨1, tk, TType.sell, qs, ps, rs, d, fs, false⟩]
      = (if 0 < qs * ps * rs - qs * pb * rb
           then { gains := qs * ps * rs - qs * pb * rb, losses := 0 }
           else { gains := 0, losses := |qs * ps * rs - qs * pb * rb| },
         [⟨0, tk, TType.buy, qb - qs, pb, rb, d, fb, true⟩,
          ⟨1, tk, TType.sell, 0, ps, rs, d, fs, true⟩]) := by
  simp [process_day_trades, keysInOrder, insertKey, dayTradeStep, processTickerGroup,
    matchBuys, matchBuyAgainstSells, findUpd, h0, h1, min_eq_right h2,
    apply_ite DTResult.gains, apply_ite DTResult.losses]

/-- Full evaluation of `calculate_month_taxes` on a month holding exactly
one same-day buy/sell pair of one ticker with `0 < qs ≤ qb`: both legs
end up flagged, so the normal loop leaves the holdings and the
gain/loss accumulators untouched; only IRRF and sales volume accrue, from
the sell's POST-matching value `(0 × ps + fs) × rs`. -/
theorem pair_month_eval (tk : String) (qb qs pb ps rb rs fb fs : ℚ) (d : SimpleDate)
    (h : Holdings) (m : Nat × Nat) (cl dtl : ℚ)
    (h0 : 0 < qb) (h1 : 0 < qs) (h2 : qs ≤ qb) :
    calculate_month_taxes
        [⟨0, tk, TType.buy, qb, pb, rb, d, fb, false⟩,
         ⟨1, tk, TType.sell, qs, ps, rs, d, fs, false⟩] h m cl dtl
      = (monthResultOf m
          { month_gains := 0, month_losses := 0,
            month_sales_total := fs * rs,
            day_trade_gains := if 0 < qs * ps * rs - qs * pb * rb
              then qs * ps * rs - qs * pb * rb else 0,
            day_trade_losses := if 0 < qs * ps * rs - qs * pb * rb
              then 0 else |qs * ps * rs - qs * pb * rb|,
            irrf_paid := fs * rs * IRRF_RATE,
            compensable_losses := cl, compensable_losses_used := 0,
            day_trade_losses_used := 0, holdings := h }, h) := by
  simp [calculate_month_taxes, keysInOrder, insertKey, processDay,
    pair_day_trades tk qb qs pb ps rb rs fb fs d h0 h1 h2, processNormalTx,
    Transaction.total_value_brl, Transaction.total_value_usd,
    apply_ite DTResult.gains, apply_ite DTResult.losses]

/-- Full evaluation of `process_day_trades` on a one-ticker buy/sell pair
of ANY orientation (`0 < qb`, `0 < qs`): `min qb qs` is matched, both
transactions are flagged whole, and each keeps its unmatched remainder
only inside the flagged record. -/
theorem pair_day_trades_min (tk : String) (qb qs pb ps rb rs fb fs : ℚ) (d : SimpleDate)
    (h0 : 0 < qb) (h1 : 0 < qs) :
    process_day_trades
        [⟨0, tk, TType.buy, qb, pb, rb, d, fb, false⟩,
         ⟨1, tk, TType.sell, qs, ps, rs, d, fs, false⟩]
      = (if 0 < min qb qs * ps * rs - min qb qs * pb * rb
           then { gains := min qb qs * ps * rs - min qb qs * pb * rb, losses := 0 }
           else { gains := 0, losses := |min qb qs * ps * rs - min qb qs * pb * rb| },
         [⟨0, tk, TType.buy, qb - min qb qs, pb, rb, d, fb, true⟩,
          ⟨1, tk, TType.sell, qs - min qb qs, ps, rs, d, fs, true⟩]) := by
  simp [process_day_trades, keysInOrder, insertKey, dayTradeStep, processTickerGroup,
    matchBuys, matchBuyAgainstSells, findUpd, h0, h1,
    apply_ite DTResult.gains, apply_ite DTResult.losses]

/-- Full evaluation of `calculate_month_taxes` on a month holding exactly
one same-day buy/sell pair of ANY orientation: both legs are flagged, so
the normal loop leaves the holdings and the normal gain/loss accumulators
untouched — in particular a SELL remainder `qs - min qb qs > 0` never
reaches FIFO; IRRF and sales volume accrue from the sell's POST-matching
value `((qs - min qb qs) × ps + fs) × rs`. -/
theorem pair_month_eval_min (tk : String) (qb qs pb ps rb rs fb fs : ℚ) (d : SimpleDate)
    (h : Holdings) (m : Nat × Nat) (cl dtl : ℚ)
    (h0 : 0 < qb) (h1 : 0 < qs) :
    calculate_month_taxes
        [⟨0, tk, TType.buy, qb, pb, rb, d, fb, false⟩,
         ⟨1, tk, TType.sell, qs, ps, rs, d, fs, false⟩] h m cl dtl
      = (monthResultOf m
          { month_gains := 0, month_losses := 0,
            month_sales_total := ((qs - min qb qs) * ps + fs) * rs,
            day_trade_gains := if 0 < min qb qs * ps * rs - min qb qs * pb * rb
              then min qb qs * ps * rs - min qb qs * pb * rb else 0,
            day_trade_losses := if 0 < min qb qs * ps * rs - min qb qs * pb * rb
              then 0 else |min qb qs * ps * rs - min qb qs * pb * rb|,
            irrf_paid := ((qs - min qb qs) * ps + fs) * rs * IRRF_RATE,
            compensable_losses := cl, compensable_losses_used := 0,
            day_trade_losses_used := 0, holdings := h }, h) := by
  simp [calculate_month_taxes, keysInOrder, insertKey, processDay,
    pair_day_trades_min tk qb qs pb ps rb rs fb fs d h0 h1, processNormalTx,
    Transaction.total_value_brl, Transaction.total_value_usd,
    apply_ite DTResult.gains, apply_ite DTResult.losses]

/-- A month consisting of a single SELL accrues IRRF and sales volume
from that sell's `total_value_brl` — `(quantity × price + fee) × rate` —
whatever its day-trade flag and whatever lots exist. -/
theorem single_sell_month (tk : String) (q p r f : ℚ) (d : SimpleDate) (flag : Bool)
    (h : Holdings) (m : Nat × Nat) (cl dtl : ℚ) :
    (calculate_month_taxes [⟨0, tk, TType.sell, q, p, r, d, f, flag⟩] h m cl dtl).1.irrf_paid
      = (q * p + f) * r * IRRF_RATE ∧
    (calculate_month_taxes [⟨0, tk, TType.sell, q, p, r, d, f, flag⟩] h m cl dtl).1.sales_total
      = (q * p + f) * r := by
  cases flag <;>
    simp [calculate_month_taxes, keysInOrder, insertKey, processDay, process_day_trades,
      dayTradeStep, processTickerGroup, matchBuys, matchBuyAgainstSells, findUpd,
      processNormalTx, monthResultOf, Transaction.total_value_brl,
      Transaction.total_value_usd, apply_ite MonthState.irrf_paid,
      apply_ite MonthState.month_sales_total]

theorem setTxFee_quantity (x : ℚ) (t : Transaction) :
    (setTxFee x t).quantity = t.quantity := rfl

theorem setTxFee_price_usd (x : ℚ) (t : Transaction) :
    (setTxFee x t).price_usd = t.price_usd := rfl

theorem setTxFee_exchange_rate (x : ℚ) (t : Transaction) :
    (setTxFee x t).exchange_rate = t.exchange_rate := rfl

theorem setLotFee_quantity (y : ℚ) (l : Lot) :
    (setLotFee y l).quantity = l.quantity := rfl

theorem setLotFee_price (y : ℚ) (l : Lot) :
    (setLotFee y l).price = l.price := rfl

theorem setLotFee_exchange_rate (y : ℚ) (l : Lot) :
    (setLotFee y l).exchange_rate = l.exchange_rate := rfl

/-- The FIFO loop never reads a brokerage fee: changing the sell's fee
and every lot's recorded fee leaves the realized gain/loss unchanged. -/
theorem fifoLoop_fee (sell : Transaction) (x y : ℚ) (lots : List Lot) (remaining : ℚ) :
    (fifoLoop (setTxFee x sell) (lots.map (setLotFee y)) remaining).1
      = (fifoLoop sell lots remaining).1 := by
  induction lots generalizing remaining with
  | nil => rfl
  | cons l rest ih =>
    by_cases h1 : 0 < remaining
    · by_cases h2 : l.quantity ≤ remaining
      · simp [fifoLoop, setTxFee_quantity, setTxFee_price_usd, setTxFee_exchange_rate,
          setLotFee_quantity, setLotFee_price, setLotFee_exchange_rate, h1, h2, ih]
      · simp [fifoLoop, setTxFee_quantity, setTxFee_price_usd, setTxFee_exchange_rate,
          setLotFee_quantity, setLotFee_price, setLotFee_exchange_rate, h1, h2]
    · simp [fifoLoop, h1]

/-- The day-trade inner matching loop commutes with replacing every
brokerage fee: the mutated transactions carry the new fee, the
accumulated gains/losses are unchanged. -/
theorem matchBAS_fee (x : ℚ) (sells : List Transaction) :
    ∀ (buy : Transaction) (acc : DTResult),
      matchBuyAgainstSells (setTxFee x buy) (sells.map (setTxFee x)) acc
        = (setTxFee x (matchBuyAgainstSells buy sells acc).1,
           ((matchBuyAgainstSells buy sells acc).2.1).map (setTxFee x),
           (matchBuyAgainstSells buy sells acc).2.2) := by
  induction sells with
  | nil => intro buy acc; rfl
  | cons s rest ih =>
    intro buy acc
    obtain ⟨tid, tk, tt, q, p, r, d, fee, flag⟩ := buy
    obtain ⟨stid, stk, stt, sq, sp, sr, sd, sfee, sflag⟩ := s
    by_cases hc : 0 < q ∧ 0 < sq
    · have ih2 := ih ⟨tid, tk, tt, q - min q sq, p, r, d, fee, true⟩
      simp only [setTxFee] at ih2 ⊢
      simp [List.map_cons, matchBuyAgainstSells, setTxFee, hc, ih2]
    · have ih2 := ih ⟨tid, tk, tt, q, p, r, d, fee, flag⟩
      simp only [setTxFee] at ih2 ⊢
      simp [List.map_cons, matchBuyAgainstSells, setTxFee, hc, ih2]

/-- The outer matching loop commutes with replacing every brokerage fee. -/
theorem matchBuys_fee (x : ℚ) (buys : List Transaction) :
    ∀ (sells : List Transaction) (acc : DTResult),
      matchBuys (buys.map (setTxFee x)) (sells.map (setTxFee x)) acc
        = (((matchBuys buys sells acc).1).map (setTxFee x),
           ((matchBuys buys sells acc).2.1).map (setTxFee x),
           (matchBuys buys sells acc).2.2) := by
  induction buys with
  | nil => intro sells acc; rfl
  | cons b rest ih =>
    intro sells acc
    simp [matchBuys, matchBAS_fee, ih]

/-- Filtering by a fee-insensitive predicate commutes with replacing
every brokerage fee. -/
theorem map_setTxFee_filter (x : ℚ) (p : Transaction → Bool)
    (hp : ∀ t, p (setTxFee x t) = p t) (ts : List Transaction) :
    (ts.map (setTxFee x)).filter p = (ts.filter p).map (setTxFee x) := by
  induction ts with
  | nil => rfl
  | cons t rest ih =>
    by_cases h : p t = true
    · simp [List.filter_cons, hp t, h, ih]
    · simp only [List.map_cons, List.filter_cons, hp t]
      simp [h, ih]

theorem keysInOrder_ticker_map (x : ℚ) (ts : List Transaction) :
    keysInOrder Transaction.ticker (ts.map (setTxFee x))
      = keysInOrder Transaction.ticker ts := by
  simp only [keysInOrder, List.foldl_map]
  rfl

theorem processTickerGroup_fee (x : ℚ) (txs : List Transaction) (acc : DTResult) :
    processTickerGroup (txs.map (setTxFee x)) acc
      = (((processTickerGroup txs acc).1).map (setTxFee x),
         (processTickerGroup txs acc).2) := by
  simp only [processTickerGroup,
    map_setTxFee_filter x (fun t => decide (t.transaction_type = TType.buy)) (fun t => rfl),
    map_setTxFee_filter x (fun t => decide (t.transaction_type = TType.sell)) (fun t => rfl),
    matchBuys_fee]
  simp

theorem dayTradeFold_fee (x : ℚ) (ts : List Transaction) (tickers : List String) :
    ∀ (pool pool2 : List Transaction) (acc : DTResult),
      (tickers.foldl (dayTradeStep (ts.map (setTxFee x))) (pool2, acc)).2
        = (tickers.foldl (dayTradeStep ts) (pool, acc)).2 := by
  induction tickers with
  | nil => intro pool pool2 acc; rfl
  | cons tk rest ih =>
    intro pool pool2 acc
    simp only [List.foldl_cons, dayTradeStep,
      map_setTxFee_filter x (fun t => decide (t.ticker = tk)) (fun t => rfl),
      processTickerGroup_fee]
    exact ih _ _ _

/-- The day-trade gains/losses of a day are invariant under replacing
every transaction's brokerage fee. -/
theorem process_day_trades_fee (x : ℚ) (ts : List Transaction) :
    (process_day_trades (ts.map (setTxFee x))).1 = (process_day_trades ts).1 := by
  simp only [process_day_trades, keysInOrder_ticker_map]
  exact dayTradeFold_fee x ts _ _ _ _

/-! Claim theorems. -/

/-- C2 (counterexample): in a one-month ledger whose only month is fully
exempt (positive net gain 500, sales volume 1500 ≤ R$20,000, so the
month's `taxable_gains` is 0), the yearly tax owed is still
`max(15% × 500 − IRRF, 0) = 2997/40 = R$74.925`, not 0: the exempted net
gain flows into `total_gains` and is taxed at year level, contradicting
the claim that it contributes nothing to the yearly tax owed. -/
theorem exempted_gain_enters_yearly_tax :
    ((calculate_taxes 2024 exLedgerExempt 0 0).monthly_breakdown.map
        MonthResult.taxable_gains) = [0] ∧
    ((calculate_taxes 2024 exLedgerExempt 0 0).monthly_breakdown.map
        MonthResult.exempted_gains) = [500] ∧
    (calculate_taxes 2024 exLedgerExempt 0 0).total_gains = 500 ∧
    (calculate_taxes 2024 exLedgerExempt 0 0).tax_owed = 2997 / 40 := by
  refine ⟨?_, ?_, ?_, ?_⟩ <;>
    norm_num [calculate_taxes, yearlySummaryOf, yearStep, calculate_month_taxes,
      monthResultOf, processDay, processNormalTx, process_day_trades,
      dayTradeStep, processTickerGroup, matchBuys, matchBuyAgainstSells, keysInOrder, insertKey,
      findUpd, updateHoldings, calculate_fifo_gain_loss, fifoLoop, monthKey,
      Transaction.total_value_brl, Transaction.total_value_usd, exLedgerExempt,
      dJan5, dJan20, TAX_RATE, DAY_TRADE_TAX_RATE, IRRF_RATE,
      SWING_TRADE_EXEMPTION, MONTHLY_EXEMPTION]

/-- C2 (amended): at month level the exemption behaves as claimed — with
positive net gains and sales volume at or below R$20,000 the month's
taxable gains are 0 and the whole net gain is recorded as exempted, and
otherwise (e.g. one cent above the threshold) the entire net gain, not
just the excess, is taxable — but the exempted net gain still enters the
yearly totals and hence the yearly tax owed. -/
theorem monthly_exemption_month_level (transactions : List Transaction)
    (holdings : Holdings) (month : Nat × Nat) (cl dtl : ℚ) :
    ((0 < (calculate_month_taxes transactions holdings month cl dtl).1.net_gains ∧
      (calculate_month_taxes transactions holdings month cl dtl).1.sales_total
        ≤ SWING_TRADE_EXEMPTION) →
        (calculate_month_taxes transactions holdings month cl dtl).1.taxable_gains = 0 ∧
        (calculate_month_taxes transactions holdings month cl dtl).1.exempted_gains
          = (calculate_month_taxes transactions holdings month cl dtl).1.net_gains) ∧
    (¬ (0 < (calculate_month_taxes transactions holdings month cl dtl).1.net_gains ∧
        (calculate_month_taxes transactions holdings month cl dtl).1.sales_total
          ≤ SWING_TRADE_EXEMPTION) →
        (calculate_month_taxes transactions holdings month cl dtl).1.taxable_gains
          = max (calculate_month_taxes transactions holdings month cl dtl).1.net_gains 0 ∧
        (calculate_month_taxes transactions holdings month cl dtl).1.exempted_gains = 0) :=
  monthResultOf_exemption month _

/-- C2 (witness): the amended month-level statement applied to the
one-month exempt ledger: net gain 500 > 0, sales 1500 ≤ 20000, so the
month's taxable gains are 0 and its exempted gains are its net gains. -/
theorem monthly_exemption_month_level_witness :
    (0 < (calculate_month_taxes exLedgerExempt emptyHoldings (2024, 1) 0 0).1.net_gains ∧
     (calculate_month_taxes exLedgerExempt emptyHoldings (2024, 1) 0 0).1.sales_total
       ≤ SWING_TRADE_EXEMPTION) ∧
    ((calculate_month_taxes exLedgerExempt emptyHoldings (2024, 1) 0 0).1.taxable_gains = 0 ∧
     (calculate_month_taxes exLedgerExempt emptyHoldings (2024, 1) 0 0).1.exempted_gains
       = (calculate_month_taxes exLedgerExempt emptyHoldings (2024, 1) 0 0).1.net_gains) := by
  have hc : 0 < (calculate_month_taxes exLedgerExempt emptyHoldings (2024, 1) 0 0).1.net_gains ∧
      (calculate_month_taxes exLedgerExempt emptyHoldings (2024, 1) 0 0).1.sales_total
        ≤ SWING_TRADE_EXEMPTION := by
    norm_num [calculate_month_taxes, monthResultOf, processDay, processNormalTx,
      process_day_trades, dayTradeStep, processTickerGroup, matchBuys, matchBuyAgainstSells,
      keysInOrder, insertKey, findUpd, updateHoldings, calculate_fifo_gain_loss,
      fifoLoop, Transaction.total_value_brl, Transaction.total_value_usd,
      exLedgerExempt, dJan5, dJan20, emptyHoldings, IRRF_RATE, SWING_TRADE_EXEMPTION]
  exact ⟨hc,
    (monthly_exemption_month_level exLedgerExempt emptyHoldings (2024, 1) 0 0).1 hc⟩

/-- C3 (code bug): `calculate_month_taxes` discards the incoming
day-trade loss carryforward: its `day_trade_losses` parameter is shadowed
by the local zero initialisation before first use, so the month result is
(provably) independent of the passed-in balance; concretely, a month with
a single day-trade gain of 50 and an incoming carryforward of 100 reports
the full gain of 50, zero carryforward consumed, and zero remaining
balance — the incoming 100 vanishes instead of 50 being consumed and 50
remaining. -/
theorem day_trade_carryforward_param_discarded :
    (∀ (transactions : List Transaction) (holdings : Holdings) (month : Nat × Nat)
        (cl p q : ℚ),
        calculate_month_taxes transactions holdings month cl p
          = calculate_month_taxes transactions holdings month cl q) ∧
    (calculate_month_taxes exDayTradeGainTxs emptyHoldings (2024, 1) 0 100).1.day_trade_gains
      = 50 ∧
    (calculate_month_taxes exDayTradeGainTxs emptyHoldings (2024, 1) 0 100).1.day_trade_losses_used
      = 0 ∧
    (calculate_month_taxes exDayTradeGainTxs emptyHoldings (2024, 1)
        0 100).1.remaining_day_trade_losses = 0 := by
  refine ⟨fun _ _ _ _ _ _ => rfl, ?_, ?_, ?_⟩ <;>
    norm_num [calculate_month_taxes, monthResultOf, processDay, processNormalTx,
      process_day_trades, dayTradeStep, processTickerGroup, matchBuys, matchBuyAgainstSells,
      keysInOrder, insertKey, findUpd, updateHoldings, calculate_fifo_gain_loss,
      fifoLoop, Transaction.total_value_brl, Transaction.total_value_usd,
      exDayTradeGainTxs, dJan5, emptyHoldings, IRRF_RATE]

/-- C6: for every ledger and prior-year balances, the yearly tax owed
equals `max(15% × max(totalGains − totalLosses, 0) + 20% ×
max(dayTradeGains − dayTradeLosses, 0) − IRRF, 0)`, and in particular it
is never negative, even when the IRRF withheld exceeds the computed tax. -/
theorem yearly_tax_owed_formula (year : Int) (transactions : List Transaction)
    (compensable_losses day_trade_compensable_losses : ℚ) :
    (calculate_taxes year transactions compensable_losses
        day_trade_compensable_losses).tax_owed
      = max (TAX_RATE * max ((calculate_taxes year transactions compensable_losses
                day_trade_compensable_losses).total_gains
            - (calculate_taxes year transactions compensable_losses
                day_trade_compensable_losses).total_losses) 0
          + DAY_TRADE_TAX_RATE * max ((calculate_taxes year transactions compensable_losses
                day_trade_compensable_losses).day_trade_gains
            - (calculate_taxes year transactions compensable_losses
                day_trade_compensable_losses).day_trade_losses) 0
          - (calculate_taxes year transactions compensable_losses
              day_trade_compensable_losses).irrf_paid) 0
      ∧ 0 ≤ (calculate_taxes year transactions compensable_losses
          day_trade_compensable_losses).tax_owed :=
  yearlySummaryOf_formula year _

/-- C9 (counterexample): with an EMPTY transaction ledger for every year,
a run whose recursion budget is the typical Python recursion limit of
1000 still performs 1001 `TaxCalculator` constructions: the prior-year
descent has no base case and its work is not bounded by the number of
transactions. -/
theorem prior_year_recursion_counterexample :
    taxCalculatorConstructions 1000 (fun _ => []) 2024 = 1001 :=
  taxConstructions_eq 1000 (fun _ => []) 2024

/-- C9 (amended): a run terminates only because the recursion budget
(the interpreter's recursion limit, whose exhaustion the source catches
as a generic exception and converts to empty carryforward) cuts off the
descent: the number of `TaxCalculator` constructions is exactly
`fuel + 1` for EVERY ledger assignment — independent of how many
transactions exist. -/
theorem prior_year_recursion_depth (fuel : Nat)
    (ledgers : Int → List Transaction) (year : Int) :
    taxCalculatorConstructions fuel ledgers year = fuel + 1 :=
  taxConstructions_eq fuel ledgers year

/-- C1 (counterexample): a sell of 50 shares with zero prior buys for its
ticker does NOT abort the computation — `calculate_fifo_gain_loss` has no
error path at all and returns a gain/loss of exactly 0 with an unchanged
(empty) inventory, the very outcome the claim says is prevented. -/
theorem fifo_oversell_zero_counterexample :
    calculate_fifo_gain_loss exSell50 [] = (0, []) := rfl

/-- C1 (amended): an oversold SELL is silently clamped: the FIFO
calculator consumes exactly `min requested available`, returns the
gain/loss over only the consumed lots (0 when there is no lot at all),
keeps every remaining lot quantity non-negative, and raises no error. -/
theorem fifo_oversell_clamps_to_available (sell : Transaction) (holdings : List Lot)
    (hq : 0 ≤ sell.quantity) (hl : ∀ l ∈ holdings, 0 ≤ l.quantity) :
    (∀ l ∈ (calculate_fifo_gain_loss sell holdings).2, 0 ≤ l.quantity) ∧
    totalQuantity (calculate_fifo_gain_loss sell holdings).2
      = totalQuantity holdings - min sell.quantity (totalQuantity holdings) ∧
    calculate_fifo_gain_loss sell [] = (0, []) := by
  have h := fifoLoop_spec sell holdings sell.quantity hq hl
  exact ⟨h.1, h.2, rfl⟩

/-- C1 (witness): the amended statement applied to the 50-share sell
against a single 50-share lot. -/
theorem fifo_oversell_clamps_witness :
    0 ≤ exSell50.quantity ∧ (∀ l ∈ [exLotB], 0 ≤ l.quantity) ∧
    ((∀ l ∈ (calculate_fifo_gain_loss exSell50 [exLotB]).2, 0 ≤ l.quantity) ∧
     totalQuantity (calculate_fifo_gain_loss exSell50 [exLotB]).2
       = totalQuantity [exLotB] - min exSell50.quantity (totalQuantity [exLotB]) ∧
     calculate_fifo_gain_loss exSell50 [] = (0, [])) :=
  ⟨by decide, by decide,
   fifo_oversell_clamps_to_available exSell50 [exLotB] (by decide) (by decide)⟩

/-- C7: the FIFO calculator drains lots strictly oldest-first — a head
lot whose quantity is at most the requested amount is consumed whole and
removed, otherwise it is split — and each consumed slice is converted
with the sell's own exchange rate on the sale side and the lot's recorded
rate on the cost side; on two lots (100 @ $10, rate 2; 50 @ $12, rate 3)
and a sell of 120 @ $15, rate 5, the cost basis uses all of lot 1 plus 20
shares of lot 2, leaving 30 @ $12 in inventory. -/
theorem fifo_oldest_first_split_and_example :
    (∀ (sell : Transaction) (holding : Lot) (rest : List Lot) (remaining : ℚ),
        0 < remaining → holding.quantity ≤ remaining →
        fifoLoop sell (holding :: rest) remaining
          = (holding.quantity * sell.price_usd * sell.exchange_rate
              - holding.quantity * holding.price * holding.exchange_rate
              + (fifoLoop sell rest (remaining - holding.quantity)).1,
             (fifoLoop sell rest (remaining - holding.quantity)).2)) ∧
    (∀ (sell : Transaction) (holding : Lot) (rest : List Lot) (remaining : ℚ),
        0 < remaining → remaining < holding.quantity →
        fifoLoop sell (holding :: rest) remaining
          = (remaining * sell.price_usd * sell.exchange_rate
              - remaining * holding.price * holding.exchange_rate,
             { holding with quantity := holding.quantity - remaining } :: rest)) ∧
    calculate_fifo_gain_loss exSellC7 [exLotA, exLotB]
      = ((100 * 15 * 5 - 100 * 10 * 2) + (20 * 15 * 5 - 20 * 12 * 3),
         [{ exLotB with quantity := 30 }]) := by
  refine ⟨?_, ?_, ?_⟩
  · intro sell holding rest remaining h1 h2
    simp [fifoLoop, h1, h2]
  · intro sell holding rest remaining h1 h2
    simp [fifoLoop, h1, not_le.mpr h2]
  · norm_num [calculate_fifo_gain_loss, fifoLoop, exSellC7, exLotA, exLotB]

/-- C7 (witness): the full-consumption law applied to the oldest lot of
the worked example. -/
theorem fifo_oldest_first_witness :
    (0 : ℚ) < 120 ∧ exLotA.quantity ≤ 120 ∧
    fifoLoop exSellC7 [exLotA, exLotB] 120
      = (exLotA.quantity * exSellC7.price_usd * exSellC7.exchange_rate
          - exLotA.quantity * exLotA.price * exLotA.exchange_rate
          + (fifoLoop exSellC7 [exLotB] (120 - exLotA.quantity)).1,
         (fifoLoop exSellC7 [exLotB] (120 - exLotA.quantity)).2) :=
  ⟨by decide, by decide,
   fifo_oldest_first_split_and_example.1 exSellC7 exLotA [exLotB] 120
     (by decide) (by decide)⟩

/-- C4 (counterexample), both orientations of a partial match.  Buy side:
on a day with a buy of 100 and a sell of only 40 (prices 10 and 12,
rate 1, empty prior inventory), the 60-share unmatched remainder of the
BUY never enters the lot inventory — the ticker's holdings after the
month are empty, not a 60-share lot.  Sell side: on a day with a buy of
only 40 and a sell of 100, over a pre-existing 100 @ $5 lot, the 60-share
unmatched remainder of the SELL never proceeds to FIFO matching — the lot
survives untouched and the normal-trade gains and losses stay 0 (FIFO on
60 shares would have realized 60 × (12 − 5) = 420). -/
theorem partial_day_trade_counterexample :
    (((calculate_month_taxes exPartialPairTxs emptyHoldings (2024, 1) 0 0).2) "X" = [] ∧
     (calculate_month_taxes exPartialPairTxs emptyHoldings (2024, 1) 0 0).1.gains = 0 ∧
     (calculate_month_taxes exPartialPairTxs emptyHoldings (2024, 1) 0 0).1.losses = 0) ∧
    (((calculate_month_taxes exSellRemainderTxs (fun _ => [exLotX])
        (2024, 1) 0 0).2) "X" = [exLotX] ∧
     (calculate_month_taxes exSellRemainderTxs (fun _ => [exLotX])
        (2024, 1) 0 0).1.gains = 0 ∧
     (calculate_month_taxes exSellRemainderTxs (fun _ => [exLotX])
        (2024, 1) 0 0).1.losses = 0) := by
  refine ⟨⟨?_, ?_, ?_⟩, ⟨?_, ?_, ?_⟩⟩ <;>
    norm_num [calculate_month_taxes, monthResultOf, processDay, processNormalTx,
      process_day_trades, dayTradeStep, processTickerGroup, matchBuys,
      matchBuyAgainstSells, keysInOrder, insertKey, findUpd, updateHoldings,
      calculate_fifo_gain_loss, fifoLoop, Transaction.total_value_brl,
      Transaction.total_value_usd, exPartialPairTxs, exSellRemainderTxs, exLotX,
      dJan5, emptyHoldings, IRRF_RATE]

/-- C4 (amended): a partially matched day-trade pair of EITHER
orientation is flagged whole: each leg keeps its unmatched remainder
(`qb - min qb qs` for the BUY, `qs - min qb qs` for the SELL) only inside
the flagged transaction; the BUY remainder never enters the lot
inventory, the SELL remainder never reaches FIFO matching — the month
leaves the holdings untouched and contributes nothing to normal-trade
gains or losses; only the matched quantity `min qb qs` feeds the
day-trade result. -/
theorem day_trade_remainder_skipped (tk : String) (qb qs pb ps rb rs fb fs : ℚ)
    (d : SimpleDate) (h : Holdings) (m : Nat × Nat) (cl dtl : ℚ)
    (h1 : 0 < qb) (h2 : 0 < qs) :
    (process_day_trades
        [⟨0, tk, TType.buy, qb, pb, rb, d, fb, false⟩,
         ⟨1, tk, TType.sell, qs, ps, rs, d, fs, false⟩]).2
      = [⟨0, tk, TType.buy, qb - min qb qs, pb, rb, d, fb, true⟩,
         ⟨1, tk, TType.sell, qs - min qb qs, ps, rs, d, fs, true⟩] ∧
    (calculate_month_taxes
        [⟨0, tk, TType.buy, qb, pb, rb, d, fb, false⟩,
         ⟨1, tk, TType.sell, qs, ps, rs, d, fs, false⟩] h m cl dtl).2 = h ∧
    (calculate_month_taxes
        [⟨0, tk, TType.buy, qb, pb, rb, d, fb, false⟩,
         ⟨1, tk, TType.sell, qs, ps, rs, d, fs, false⟩] h m cl dtl).1.gains = 0 ∧
    (calculate_month_taxes
        [⟨0, tk, TType.buy, qb, pb, rb, d, fb, false⟩,
         ⟨1, tk, TType.sell, qs, ps, rs, d, fs, false⟩] h m cl dtl).1.losses = 0 := by
  have hdt := pair_day_trades_min tk qb qs pb ps rb rs fb fs d h1 h2
  have hm := pair_month_eval_min tk qb qs pb ps rb rs fb fs d h m cl dtl h1 h2
  exact ⟨by rw [hdt], by rw [hm], by rw [hm]; rfl, by rw [hm]; rfl⟩

/-- C4 (witness): the amended statement at the 40-buy / 100-sell day —
the sell has a positive 60-share post-match remainder (`100 - min 40 100`)
which stays inside the flagged transaction, and the pre-existing 100 @ $5
lot survives the month untouched with zero normal gains/losses. -/
theorem day_trade_remainder_skipped_witness :
    (0 : ℚ) < 40 ∧ (0 : ℚ) < 100 ∧
    ((process_day_trades
        [⟨0, "X", TType.buy, 40, 10, 1, dJan5, 0, false⟩,
         ⟨1, "X", TType.sell, 100, 12, 1, dJan5, 0, false⟩]).2
      = [⟨0, "X", TType.buy, 40 - min 40 100, 10, 1, dJan5, 0, true⟩,
         ⟨1, "X", TType.sell, 100 - min 40 100, 12, 1, dJan5, 0, true⟩] ∧
     (calculate_month_taxes
        [⟨0, "X", TType.buy, 40, 10, 1, dJan5, 0, false⟩,
         ⟨1, "X", TType.sell, 100, 12, 1, dJan5, 0, false⟩]
        (fun _ => [exLotX]) (2024, 1) 0 0).2 = (fun _ => [exLotX]) ∧
     (calculate_month_taxes
        [⟨0, "X", TType.buy, 40, 10, 1, dJan5, 0, false⟩,
         ⟨1, "X", TType.sell, 100, 12, 1, dJan5, 0, false⟩]
        (fun _ => [exLotX]) (2024, 1) 0 0).1.gains = 0 ∧
     (calculate_month_taxes
        [⟨0, "X", TType.buy, 40, 10, 1, dJan5, 0, false⟩,
         ⟨1, "X", TType.sell, 100, 12, 1, dJan5, 0, false⟩]
        (fun _ => [exLotX]) (2024, 1) 0 0).1.losses = 0) :=
  ⟨by norm_num, by norm_num,
   day_trade_remainder_skipped "X" 40 100 10 12 1 1 0 0 dJan5 (fun _ => [exLotX])
     (2024, 1) 0 0 (by norm_num) (by norm_num)⟩

/-- C5 (counterexample): for a same-day fully matched pair (buy 100 @ $10
and sell 100 @ $10, exchange rate 1, no fees), the claim expects IRRF of
`1000 × 0.00005 = 0.05` and sales volume 1000 from the sell's full sale
value; the code accrues 0 for both, because `total_value_brl` is read
AFTER day-trade matching zeroed the sell's quantity. -/
theorem irrf_day_trade_counterexample :
    (calculate_month_taxes exFullPairTxs emptyHoldings (2024, 1) 0 0).1.irrf_paid = 0 ∧
    (calculate_month_taxes exFullPairTxs emptyHoldings (2024, 1) 0 0).1.sales_total = 0 := by
  refine ⟨?_, ?_⟩ <;>
    norm_num [calculate_month_taxes, monthResultOf, processDay, processNormalTx,
      process_day_trades, dayTradeStep, processTickerGroup, matchBuys,
      matchBuyAgainstSells, keysInOrder, insertKey, findUpd, updateHoldings,
      calculate_fifo_gain_loss, fifoLoop, Transaction.total_value_brl,
      Transaction.total_value_usd, exFullPairTxs, dJan5, emptyHoldings, IRRF_RATE]

/-- C5 (amended): IRRF and sales volume accrue for every sell from its
`total_value_brl` AS OF the moment the normal loop reads it, i.e. after
day-trade matching has decremented the quantity: a sell untouched by
matching contributes its full `(quantity × price + fee) × rate`, while a
fully matched sell contributes only `fee × rate`. -/
theorem irrf_uses_post_match_quantity (tk : String) (q p r f pb rb fb : ℚ)
    (d : SimpleDate) (h : Holdings) (m : Nat × Nat) (cl dtl : ℚ) (hq : 0 < q) :
    ((calculate_month_taxes [⟨0, tk, TType.sell, q, p, r, d, f, false⟩] h m cl dtl).1.irrf_paid
        = (q * p + f) * r * IRRF_RATE ∧
     (calculate_month_taxes [⟨0, tk, TType.sell, q, p, r, d, f, false⟩] h m cl dtl).1.sales_total
        = (q * p + f) * r) ∧
    ((calculate_month_taxes
        [⟨0, tk, TType.buy, q, pb, rb, d, fb, false⟩,
         ⟨1, tk, TType.sell, q, p, r, d, f, false⟩] h m cl dtl).1.irrf_paid
        = f * r * IRRF_RATE ∧
     (calculate_month_taxes
        [⟨0, tk, TType.buy, q, pb, rb, d, fb, false⟩,
         ⟨1, tk, TType.sell, q, p, r, d, f, false⟩] h m cl dtl).1.sales_total
        = f * r) := by
  have hm := pair_month_eval tk q q pb p rb r fb f d h m cl dtl hq hq le_rfl
  exact ⟨single_sell_month tk q p r f d false h m cl dtl,
    ⟨by rw [hm]; rfl, by rw [hm]; rfl⟩⟩

/-- C5 (witness): the amended statement at a 100-share sell with fee 2,
price 10, rate 1 (full value 1002) and the same sell fully matched by a
same-day buy (only the fee remains). -/
theorem irrf_uses_post_match_quantity_witness :
    (0 : ℚ) < 100 ∧
    (((calculate_month_taxes [⟨0, "Y", TType.sell, 100, 10, 1, dJan5, 2, false⟩]
          emptyHoldings (2024, 1) 0 0).1.irrf_paid
        = (100 * 10 + 2) * 1 * IRRF_RATE ∧
      (calculate_month_taxes [⟨0, "Y", TType.sell, 100, 10, 1, dJan5, 2, false⟩]
          emptyHoldings (2024, 1) 0 0).1.sales_total
        = (100 * 10 + 2) * 1) ∧
     ((calculate_month_taxes
          [⟨0, "Y", TType.buy, 100, 9, 1, dJan5, 3, false⟩,
           ⟨1, "Y", TType.sell, 100, 10, 1, dJan5, 2, false⟩]
          emptyHoldings (2024, 1) 0 0).1.irrf_paid
        = 2 * 1 * IRRF_RATE ∧
      (calculate_month_taxes
          [⟨0, "Y", TType.buy, 100, 9, 1, dJan5, 3, false⟩,
           ⟨1, "Y", TType.sell, 100, 10, 1, dJan5, 2, false⟩]
          emptyHoldings (2024, 1) 0 0).1.sales_total
        = 2 * 1)) :=
  ⟨by norm_num,
   irrf_uses_post_match_quantity "Y" 100 10 1 2 9 1 3 dJan5 emptyHoldings (2024, 1)
     0 0 (by norm_num)⟩

/-- C8: a day holding exactly a buy of `q` shares and a sell of `q`
shares of one ticker (any `q > 0`, e.g. 100) is processed entirely as a
day trade: the ticker's pre-existing FIFO inventory is untouched by both
legs (whatever lots existed before), no lot is added, the month's
normal-trade gains and losses receive no contribution, and the matched
quantity alone produces the day-trade result. -/
theorem same_day_pair_isolated (tk : String) (q pb ps rb rs fb fs : ℚ)
    (d : SimpleDate) (h : Holdings) (m : Nat × Nat) (cl dtl : ℚ) (hq : 0 < q) :
    (calculate_month_taxes
        [⟨0, tk, TType.buy, q, pb, rb, d, fb, false⟩,
         ⟨1, tk, TType.sell, q, ps, rs, d, fs, false⟩] h m cl dtl).2 = h ∧
    (calculate_month_taxes
        [⟨0, tk, TType.buy, q, pb, rb, d, fb, false⟩,
         ⟨1, tk, TType.sell, q, ps, rs, d, fs, false⟩] h m cl dtl).1.gains = 0 ∧
    (calculate_month_taxes
        [⟨0, tk, TType.buy, q, pb, rb, d, fb, false⟩,
         ⟨1, tk, TType.sell, q, ps, rs, d, fs, false⟩] h m cl dtl).1.losses = 0 ∧
    (calculate_month_taxes
        [⟨0, tk, TType.buy, q, pb, rb, d, fb, false⟩,
         ⟨1, tk, TType.sell, q, ps, rs, d, fs, false⟩] h m cl dtl).1.day_trade_gains
      = (if 0 < q * ps * rs - q * pb * rb then q * ps * rs - q * pb * rb else 0) ∧
    (calculate_month_taxes
        [⟨0, tk, TType.buy, q, pb, rb, d, fb, false⟩,
         ⟨1, tk, TType.sell, q, ps, rs, d, fs, false⟩] h m cl dtl).1.day_trade_losses
      = (if 0 < q * ps * rs - q * pb * rb then 0 else |q * ps * rs - q * pb * rb|) := by
  have hm := pair_month_eval tk q q pb ps rb rs fb fs d h m cl dtl hq hq le_rfl
  exact ⟨by rw [hm], by rw [hm]; rfl, by rw [hm]; rfl, by rw [hm]; rfl,
    by rw [hm]; rfl⟩

/-- C8 (witness): the statement at a 100-share pair over a non-empty
pre-existing inventory, which comes through unchanged. -/
theorem same_day_pair_isolated_witness :
    (0 : ℚ) < 100 ∧
    ((calculate_month_taxes
        [⟨0, "Y", TType.buy, 100, 10, 1, dJan5, 0, false⟩,
         ⟨1, "Y", TType.sell, 100, 12, 1, dJan5, 0, false⟩]
        (fun _ => [exLotA]) (2024, 1) 0 0).2 = (fun _ => [exLotA]) ∧
     (calculate_month_taxes
        [⟨0, "Y", TType.buy, 100, 10, 1, dJan5, 0, false⟩,
         ⟨1, "Y", TType.sell, 100, 12, 1, dJan5, 0, false⟩]
        (fun _ => [exLotA]) (2024, 1) 0 0).1.gains = 0 ∧
     (calculate_month_taxes
        [⟨0, "Y", TType.buy, 100, 10, 1, dJan5, 0, false⟩,
         ⟨1, "Y", TType.sell, 100, 12, 1, dJan5, 0, false⟩]
        (fun _ => [exLotA]) (2024, 1) 0 0).1.losses = 0 ∧
     (calculate_month_taxes
        [⟨0, "Y", TType.buy, 100, 10, 1, dJan5, 0, false⟩,
         ⟨1, "Y", TType.sell, 100, 12, 1, dJan5, 0, false⟩]
        (fun _ => [exLotA]) (2024, 1) 0 0).1.day_trade_gains
       = (if 0 < (100 : ℚ) * 12 * 1 - 100 * 10 * 1 then (100 : ℚ) * 12 * 1 - 100 * 10 * 1
          else 0) ∧
     (calculate_month_taxes
        [⟨0, "Y", TType.buy, 100, 10, 1, dJan5, 0, false⟩,
         ⟨1, "Y", TType.sell, 100, 12, 1, dJan5, 0, false⟩]
        (fun _ => [exLotA]) (2024, 1) 0 0).1.day_trade_losses
       = (if 0 < (100 : ℚ) * 12 * 1 - 100 * 10 * 1 then 0
          else |(100 : ℚ) * 12 * 1 - 100 * 10 * 1|)) :=
  ⟨by norm_num,
   same_day_pair_isolated "Y" 100 10 12 1 1 0 0 dJan5 (fun _ => [exLotA]) (2024, 1)
     0 0 (by norm_num)⟩

/-- C10: brokerage fees never enter realized gain/loss figures — the FIFO
gain/loss is invariant under replacing the sell's fee and every lot's
recorded fee, and the day-trade gains/losses are invariant under
replacing every transaction's fee — while the fee IS part of the
home-currency sale value `(quantity × price + fee) × rate` accrued as the
IRRF base and as the month's sales volume, the quantity compared against
the exemption threshold. -/
theorem brokerage_fee_roles :
    (∀ (sell : Transaction) (lots : List Lot) (x y : ℚ),
        (calculate_fifo_gain_loss (setTxFee x sell) (lots.map (setLotFee y))).1
          = (calculate_fifo_gain_loss sell lots).1) ∧
    (∀ (transactions : List Transaction) (x : ℚ),
        (process_day_trades (transactions.map (setTxFee x))).1
          = (process_day_trades transactions).1) ∧
    (∀ (tk : String) (q p r f : ℚ) (d : SimpleDate) (flag : Bool) (h : Holdings)
        (m : Nat × Nat) (cl dtl : ℚ),
        (calculate_month_taxes
            [⟨0, tk, TType.sell, q, p, r, d, f, flag⟩] h m cl dtl).1.irrf_paid
          = (q * p + f) * r * IRRF_RATE ∧
        (calculate_month_taxes
            [⟨0, tk, TType.sell, q, p, r, d, f, flag⟩] h m cl dtl).1.sales_total
          = (q * p + f) * r) :=
  ⟨fun sell lots x y => fifoLoop_fee sell x y lots sell.quantity,
   fun transactions x => process_day_trades_fee x transactions,
   fun tk q p r f d flag h m cl dtl => single_sell_month tk q p r f d flag h m cl dtl⟩

end FinanceAPI
